import Mathlib

/-!
# Rendan: frame protocol of `VulkanRenderer`

A shallow embedding of `src/VulkanRenderer.cpp`.  Every member function becomes a
function that returns the list of external calls it makes, in order, together with
the way it ends (normal return, C++ exception, or undefined behaviour).  What the
Vulkan / VMA entry points answer is supplied by an environment record, one per call
of a member function.  Calls into collaborators whose source is not among the
sources (Logger, the command-buffer and render-pass brackets, the constructor of Mesh)
are recorded as calls and taken to return; `Mesh::load()` returns or throws the
allocation error, as the specification describes it.
-/

namespace Rendan

/-! ## Handles, results and constants of the graphics API -/

/-- API handles (VkDevice, VkQueue, VkSemaphore, VkCommandBuffer, ...), as numbers. -/
abbrev Handle := Nat

/-- The C enumeration `VkResult`. -/
abbrev VkResult := Int

def VK_SUCCESS : VkResult := 0
def VK_ERROR_INITIALIZATION_FAILED : VkResult := -3
def VK_ERROR_OUT_OF_DATE_KHR : VkResult := -1000001004
def VK_NULL_HANDLE : Handle := 0
def UINT64_MAX : Nat := 2 ^ 64 - 1
def INT_MAX : Nat := 2 ^ 31 - 1
def VK_STRUCTURE_TYPE_SUBMIT_INFO : Nat := 4
def VK_STRUCTURE_TYPE_PRESENT_INFO_KHR : Nat := 1000001001
def VK_PIPELINE_STAGE_COLOR_ATTACHMENT_OUTPUT_BIT : Nat := 0x400
def VK_PIPELINE_BIND_POINT_GRAPHICS : Nat := 0
def VK_INDEX_TYPE_UINT32 : Nat := 1
def VK_API_VERSION_1_1 : Nat := 4198400

/-- Conversion of a `size_t` to the `uint32_t` parameter of a draw call. -/
def toUint32 (n : Nat) : Nat := n % 2 ^ 32

/-- The members a renderer acquires and releases. -/
inductive Resource where
  | context | device | allocator | semaphores | swapchain | renderPass
  | framebuffers | graphicPipeline | commandPool | commandBuffer | mesh
  deriving DecidableEq

/-- A vertex record `{position, colour}`; every float literal of the source has one
decimal, so a component is stored in tenths (`-0.5f` is `-5`, `1.0f` is `10`). -/
structure Vertex where
  pos : Int × Int × Int
  color : Int × Int × Int
  deriving DecidableEq

structure VmaAllocatorCreateInfo where
  physicalDevice : Handle
  device : Handle
  inst : Handle
  vulkanApiVersion : Nat
  deriving DecidableEq

/-- The submit descriptor; an array argument is the list of the elements its count covers. -/
structure VkSubmitInfo where
  sType : Nat
  waitSemaphoreCount : Nat
  pWaitSemaphores : List Handle
  pWaitDstStageMask : List Nat
  commandBufferCount : Nat
  pCommandBuffers : List Handle
  signalSemaphoreCount : Nat
  pSignalSemaphores : List Handle
  deriving DecidableEq

structure VkPresentInfoKHR where
  sType : Nat
  waitSemaphoreCount : Nat
  pWaitSemaphores : List Handle
  swapchainCount : Nat
  pSwapchains : List Handle
  pImageIndices : List Nat
  pResults : Option Handle
  deriving DecidableEq

/-- One external call, with its arguments. -/
inductive Call where
  | makeShared (res : Resource)
  | loggerError (msg : String)
  | loggerInfo (msg : String)
  | vmaCreateAllocator (info : VmaAllocatorCreateInfo)
  | vmaDestroyAllocator (allocator : Handle)
  | reset (res : Resource)
  | newMesh (addr : Nat) (allocator : Handle) (vertices : List Vertex) (indices : List Nat)
  | meshLoad (addr : Nat)
  | deleteMesh (ptr : Option Nat)
  | vkAcquireNextImageKHR (device swapchain : Handle) (timeout : Nat) (semaphore fence : Handle)
  | vkQueueSubmit (queue : Handle) (submitCount : Nat) (pSubmits : VkSubmitInfo) (fence : Handle)
  | vkQueuePresentKHR (queue : Handle) (pPresentInfo : VkPresentInfoKHR)
  | vkQueueWaitIdle (queue : Handle)
  | beginRecording (cb : Handle)
  | beginRenderPass (renderPass cb framebuffer : Handle)
  | vkCmdBindPipeline (cb : Handle) (bindPoint : Nat) (pipeline : Handle)
  | vkCmdBindVertexBuffers (cb : Handle) (firstBinding bindingCount : Nat) (buffer : Handle)
      (offset : Nat)
  | vkCmdDraw (cb : Handle) (vertexCount instanceCount firstVertex firstInstance : Nat)
  | vkCmdBindIndexBuffer (cb : Handle) (buffer : Handle) (offset indexType : Nat)
  | vkCmdDrawIndexed (cb : Handle) (indexCount instanceCount firstIndex : Nat)
      (vertexOffset : Int) (firstInstance : Nat)
  | endRenderPass (renderPass cb : Handle)
  | endRecording (cb : Handle)
  deriving DecidableEq

/-! ## Effects: call trace, exceptions, undefined behaviour -/

/-- The exception classes: the two the file throws, and the allocation error that
`Mesh::load()` throws (see `Mesh.load`). -/
inductive Exn where
  | VulkanInitialisationException (what : String)
  | runtime_error (what : String)
  | allocation_error (what : String)
  deriving DecidableEq

/-- How a member function ends.  `undefined` stands for a run that left defined
behaviour: the trace holds the calls made up to that point, and nothing is promised
from there on. -/
inductive Result (α : Type) where
  | returned (a : α)
  | threw (e : Exn)
  | undefined
  deriving DecidableEq

/-- A run of a member function: the calls made, in order, and how it ended. -/
structure Run (α : Type) where
  trace : List Call
  result : Result α
  deriving DecidableEq

def Run.pure {α : Type} (a : α) : Run α := ⟨[], .returned a⟩

/-- Sequencing: the second part runs only after a normal return of the first. -/
def Run.bind {α β : Type} (x : Run α) (f : α → Run β) : Run β :=
  match x.result with
  | .returned a => ⟨x.trace ++ (f a).trace, (f a).result⟩
  | .threw e => ⟨x.trace, .threw e⟩
  | .undefined => ⟨x.trace, .undefined⟩

instance : Monad Run where
  pure := Run.pure
  bind := Run.bind

/-- A call whose return value, if any, is not looked at. -/
def call (c : Call) : Run Unit := ⟨[c], .returned ()⟩

/-- A call to a C entry point that answers `res`. -/
def callResult (c : Call) (res : VkResult) : Run VkResult := ⟨[c], .returned res⟩

def throwExn {α : Type} (e : Exn) : Run α := ⟨[], .threw e⟩

/-- Execution leaves defined behaviour (out-of-range `operator[]`, signed overflow). -/
def undefinedBehaviour {α : Type} : Run α := ⟨[], .undefined⟩

/-- The block `try { body } catch (VulkanInitialisationException &e) { handler(e.what()) }`. -/
def tryCatchInitialisation {α : Type} (body : Run α) (handler : String → Run α) : Run α :=
  match body.result with
  | .threw (.VulkanInitialisationException what) =>
      ⟨body.trace ++ (handler what).trace, (handler what).result⟩
  | _ => body

/-- Element access `v[i]` of a `std::vector`; out of range is undefined behaviour. -/
def vectorAt {α : Type} (v : List α) (i : Nat) : Run α :=
  match v[i]? with
  | some a => Run.pure a
  | none => undefinedBehaviour

/-! ## Component objects

The component classes are declared in headers that are not among the sources; each is
taken with the handles `VulkanRenderer.cpp` reads through its accessors. -/

/-- The context, read through `getInstance()` and `getPhysicalDevice()`. -/
structure VulkanContext where
  inst : Handle
  physicalDevice : Handle
  deriving DecidableEq

/-- The device, read through `getDevice()`, `getGraphicQueue()`, `getPresentQueue()`. -/
structure VulkanDevice where
  device : Handle
  graphicQueue : Handle
  presentQueue : Handle
  deriving DecidableEq

/-- The semaphore pair, read through `getAvailableSemaphore()`, `getFinishedSemaphore()`. -/
structure VulkanSemaphores where
  availableSemaphore : Handle
  finishedSemaphore : Handle
  deriving DecidableEq

/-- The swapchain, read through `getSwapchain()`. -/
structure VulkanSwapchain where
  swapchain : Handle
  deriving DecidableEq

/-- The render pass object on which `beginRenderPass` / `endRenderPass` are called. -/
structure VulkanRenderPass where
  renderPass : Handle
  deriving DecidableEq

/-- The framebuffer set, read through `getFramebuffers()`. -/
structure VulkanFramebuffers where
  framebuffers : List Handle
  deriving DecidableEq

/-- The pipeline, read through `getPipeline()`. -/
structure GraphicPipeline where
  pipeline : Handle
  deriving DecidableEq

/-- The command pool. -/
structure VulkanCommandPool where
  commandPool : Handle
  deriving DecidableEq

/-- The command buffer set, read through `getCommandBuffers()`. -/
structure VulkanCommandBuffers where
  commandBuffers : List Handle
  deriving DecidableEq

/-- Modelled from the spec: the class `Mesh` of `VulkanMesh.hpp` is not among the sources.
It keeps the vertex and index lists it was created with (an empty index list means a
non-indexed draw) and owns one vertex buffer and one index buffer. -/
structure Mesh where
  addr : Nat
  allocator : Handle
  vertices : List Vertex
  indices : List Nat
  vertexBuffer : Handle
  indexBuffer : Handle
  deriving DecidableEq

/-- The members of a live `VulkanRenderer`; `mesh` is the raw pointer (`none` is null). -/
structure VulkanRenderer where
  window : Handle
  context : VulkanContext
  device : VulkanDevice
  vkallocator : Handle
  semaphores : VulkanSemaphores
  swapchain : VulkanSwapchain
  renderPass : VulkanRenderPass
  framebuffers : VulkanFramebuffers
  graphicPipeline : GraphicPipeline
  commandPool : VulkanCommandPool
  commandBuffer : VulkanCommandBuffers
  mesh : Option Nat
  deriving DecidableEq

/-! ## Environment answers -/

/-- What the allocator library answers to `vmaCreateAllocator`: the result code and the
value left in the out-parameter. -/
structure AllocatorEnv where
  vmaCreateAllocator : VkResult
  allocatorOut : Handle

/-- What the component constructors answer during construction of the renderer: the
object, or the message of the `VulkanInitialisationException` they throw.  `meshPointer`
is the value the member `mesh` holds when the constructor is done (its declaration is in
a header that is not among the sources). -/
structure ConstructEnv where
  context : Except String VulkanContext
  device : Except String VulkanDevice
  allocator : AllocatorEnv
  semaphores : Except String VulkanSemaphores
  swapchain : Except String VulkanSwapchain
  renderPass : Except String VulkanRenderPass
  framebuffers : Except String VulkanFramebuffers
  graphicPipeline : Except String GraphicPipeline
  commandPool : Except String VulkanCommandPool
  commandBuffer : Except String VulkanCommandBuffers
  meshPointer : Option Nat

/-- What the API answers during one `present()`; `imageIndex` is the value the local
variable holds after the acquire call. -/
structure PresentEnv where
  vkAcquireNextImageKHR : VkResult
  imageIndex : Nat
  vkQueueSubmit : VkResult
  vkQueuePresentKHR : VkResult
  vkQueueWaitIdle : VkResult

/-- What one `render()` gets from outside: the address `new Mesh` returns, whether the
allocator accepts the upload of `load()` (or the message of the allocation error), and
the buffers the mesh owns after `load()`. -/
structure RenderEnv where
  meshAddr : Nat
  vertexBuffer : Handle
  indexBuffer : Handle
  meshLoad : Except String Unit

/-! ## The member functions of `VulkanRenderer` -/

/-- The expression `std::make_shared<T>(...)`: the constructor of the component runs and
either yields the object or throws `VulkanInitialisationException`. -/
def makeShared {α : Type} (res : Resource) (answer : Except String α) : Run α :=
  match answer with
  | .ok a => ⟨[.makeShared res], .returned a⟩
  | .error what => ⟨[.makeShared res], .threw (.VulkanInitialisationException what)⟩

/-- The function `VulkanRenderer::createAllocator`, on the members `context` and
`device` as they are when it is called (`none` is a null pointer). -/
def VulkanRenderer.createAllocator (env : AllocatorEnv) (context : Option VulkanContext)
    (device : Option VulkanDevice) : Run Handle :=
  match context, device with
  | some context, some device => do
      let allocatorInfo : VmaAllocatorCreateInfo :=
        { physicalDevice := context.physicalDevice
          device := device.device
          inst := context.inst
          vulkanApiVersion := VK_API_VERSION_1_1 }
      let _ ← callResult (.vmaCreateAllocator allocatorInfo) env.vmaCreateAllocator
      let vkallocator := env.allocatorOut
      pure vkallocator
  | _, _ => throwExn (.VulkanInitialisationException "Impossible to create the allocator")

/-- The constructor `VulkanRenderer::VulkanRenderer(GLFWwindow *)`. -/
def VulkanRenderer.construct (env : ConstructEnv) (window : Handle) : Run VulkanRenderer :=
  tryCatchInitialisation
    (do
      let context ← makeShared .context env.context
      let device ← makeShared .device env.device
      let vkallocator ← VulkanRenderer.createAllocator env.allocator (some context) (some device)
      let semaphores ← makeShared .semaphores env.semaphores
      let swapchain ← makeShared .swapchain env.swapchain
      let renderPass ← makeShared .renderPass env.renderPass
      let framebuffers ← makeShared .framebuffers env.framebuffers
      let graphicPipeline ← makeShared .graphicPipeline env.graphicPipeline
      let commandPool ← makeShared .commandPool env.commandPool
      let commandBuffer ← makeShared .commandBuffer env.commandBuffer
      pure
        { window := window
          context := context
          device := device
          vkallocator := vkallocator
          semaphores := semaphores
          swapchain := swapchain
          renderPass := renderPass
          framebuffers := framebuffers
          graphicPipeline := graphicPipeline
          commandPool := commandPool
          commandBuffer := commandBuffer
          mesh := env.meshPointer })
    (fun what => do
      call (.loggerError what)
      throwExn (.runtime_error "Impossible to initialiaze Vulkan"))

/-- The destructor `VulkanRenderer::~VulkanRenderer()`. -/
def VulkanRenderer.destruct (r : VulkanRenderer) : Run Unit := do
  call (.deleteMesh r.mesh)
  call (.reset .commandBuffer)
  call (.reset .commandPool)
  call (.reset .graphicPipeline)
  call (.reset .framebuffers)
  call (.reset .renderPass)
  call (.reset .swapchain)
  call (.reset .semaphores)
  call (.vmaDestroyAllocator r.vkallocator)
  call (.reset .device)
  call (.reset .context)

/-- The function `VulkanRenderer::present`. -/
def VulkanRenderer.present (env : PresentEnv) (r : VulkanRenderer) : Run Unit := do
  let commandBuffers := r.commandBuffer.commandBuffers
  let _ ← callResult
    (.vkAcquireNextImageKHR r.device.device r.swapchain.swapchain UINT64_MAX
      r.semaphores.availableSemaphore VK_NULL_HANDLE)
    env.vkAcquireNextImageKHR
  let imageIndex := env.imageIndex
  let waitSemaphores := [r.semaphores.availableSemaphore]
  let signalSemaphores := [r.semaphores.finishedSemaphore]
  let waitStages := [VK_PIPELINE_STAGE_COLOR_ATTACHMENT_OUTPUT_BIT]
  let cb ← vectorAt commandBuffers imageIndex
  let submitInfo : VkSubmitInfo :=
    { sType := VK_STRUCTURE_TYPE_SUBMIT_INFO
      waitSemaphoreCount := 1
      pWaitSemaphores := waitSemaphores
      pWaitDstStageMask := waitStages
      commandBufferCount := 1
      pCommandBuffers := [cb]
      signalSemaphoreCount := 1
      pSignalSemaphores := signalSemaphores }
  let submitted ← callResult (.vkQueueSubmit r.device.graphicQueue 1 submitInfo VK_NULL_HANDLE)
    env.vkQueueSubmit
  if submitted ≠ VK_SUCCESS then
    throwExn (.runtime_error "Impossible to submit draw command buffer")
  else do
    let swapChains := [r.swapchain.swapchain]
    let presentInfo : VkPresentInfoKHR :=
      { sType := VK_STRUCTURE_TYPE_PRESENT_INFO_KHR
        waitSemaphoreCount := 1
        pWaitSemaphores := signalSemaphores
        swapchainCount := 1
        pSwapchains := swapChains
        pImageIndices := [imageIndex]
        pResults := none }
    let _ ← callResult (.vkQueuePresentKHR r.device.presentQueue presentInfo)
      env.vkQueuePresentKHR
    let _ ← callResult (.vkQueueWaitIdle r.device.presentQueue) env.vkQueueWaitIdle
    pure ()

/-- Modelled from the spec: `Mesh::load()` of `VulkanMesh.hpp` is not among the sources.
It uploads the vertex and index data into allocator-backed buffers and fails with an
allocation error if the allocator rejects the request. -/
def Mesh.load (env : RenderEnv) (mesh : Mesh) : Run Unit :=
  match env.meshLoad with
  | .ok _ => ⟨[.meshLoad mesh.addr], .returned ()⟩
  | .error what => ⟨[.meshLoad mesh.addr], .threw (.allocation_error what)⟩

/-- The body of the `for` loop of `render()`, for command buffer `cb` and framebuffer `fb`. -/
def recordCommands (r : VulkanRenderer) (mesh : Mesh) (cb fb : Handle) : Run Unit := do
  call (.beginRecording cb)
  call (.beginRenderPass r.renderPass.renderPass cb fb)
  call (.vkCmdBindPipeline cb VK_PIPELINE_BIND_POINT_GRAPHICS r.graphicPipeline.pipeline)
  let offset := 0
  call (.vkCmdBindVertexBuffers cb 0 1 mesh.vertexBuffer offset)
  if mesh.indices.isEmpty then do
    call (.loggerInfo "Drawing without index")
    call (.vkCmdDraw cb (toUint32 mesh.vertices.length) 1 0 0)
  else do
    call (.loggerInfo "Drawing with index")
    call (.vkCmdBindIndexBuffer cb mesh.indexBuffer offset VK_INDEX_TYPE_UINT32)
    call (.vkCmdDrawIndexed cb (toUint32 mesh.indices.length) 1 0 0 0)
  call (.endRenderPass r.renderPass.renderPass cb)
  call (.endRecording cb)

/-- The loop `for (int i = 0; i < _framebuffer.size(); ++i)` of `render()`, entered with
counter `i` and the framebuffers from position `i` on still to visit.  The counter is an
`int`: incrementing it past `INT_MAX` is undefined behaviour. -/
def recordLoop (r : VulkanRenderer) (mesh : Mesh) (commandBuffers : List Handle) :
    List Handle → Nat → Run Unit
  | [], _ => pure ()
  | fb :: rest, i => do
      let cb ← vectorAt commandBuffers i
      recordCommands r mesh cb fb
      if INT_MAX < i + 1 then
        undefinedBehaviour
      else
        recordLoop r mesh commandBuffers rest (i + 1)

/-- The function `VulkanRenderer::render`, with the two literal vectors of its first
lines as parameters.  The member `mesh` is assigned before `load()` runs; the new state
of the renderer is handed on when the function returns. -/
def VulkanRenderer.renderWith (vertices : List Vertex) (indices : List Nat) (env : RenderEnv)
    (r : VulkanRenderer) : Run VulkanRenderer := do
  call (.newMesh env.meshAddr r.vkallocator vertices indices)
  let mesh : Mesh :=
    { addr := env.meshAddr
      allocator := r.vkallocator
      vertices := vertices
      indices := indices
      vertexBuffer := env.vertexBuffer
      indexBuffer := env.indexBuffer }
  mesh.load env
  let commandBuffers := r.commandBuffer.commandBuffers
  let _framebuffer := r.framebuffers.framebuffers
  recordLoop r mesh commandBuffers _framebuffer 0
  pure { r with mesh := some mesh.addr }

/-- The literal `vertices` of `render()`. -/
def vertices : List Vertex :=
  [ ⟨(-5, -5, 0), (10, 0, 0)⟩,
    ⟨(5, -5, 0), (0, 10, 0)⟩,
    ⟨(5, 5, 0), (0, 0, 10)⟩,
    ⟨(-5, 5, 0), (10, 10, 10)⟩ ]

/-- The literal `indices` of `render()`. -/
def indices : List Nat := [0, 1, 2, 2, 3, 0]

/-- The function `VulkanRenderer::render`. -/
def VulkanRenderer.render (env : RenderEnv) (r : VulkanRenderer) : Run VulkanRenderer :=
  VulkanRenderer.renderWith vertices indices env r

/-! ## Observations on call traces -/

/-- The command buffer a call records into, if it is a recording command. -/
def Call.commandBuffer : Call → Option Handle
  | .beginRecording cb => some cb
  | .beginRenderPass _ cb _ => some cb
  | .vkCmdBindPipeline cb _ _ => some cb
  | .vkCmdBindVertexBuffers cb _ _ _ _ => some cb
  | .vkCmdDraw cb _ _ _ _ => some cb
  | .vkCmdBindIndexBuffer cb _ _ _ => some cb
  | .vkCmdDrawIndexed cb _ _ _ _ _ => some cb
  | .endRenderPass _ cb => some cb
  | .endRecording cb => some cb
  | _ => none

/-- The commands of a trace that were recorded into command buffer `cb`, in order. -/
def recordedInto (t : List Call) (cb : Handle) : List Call :=
  t.filter (fun c => decide (c.commandBuffer = some cb))

def Call.isDraw : Call → Bool
  | .vkCmdDraw _ _ _ _ _ => true
  | .vkCmdDrawIndexed _ _ _ _ _ _ => true
  | _ => false

def Call.isBindIndexBuffer : Call → Bool
  | .vkCmdBindIndexBuffer _ _ _ _ => true
  | _ => false

def Call.isBind : Call → Bool
  | .vkCmdBindPipeline _ _ _ => true
  | .vkCmdBindVertexBuffers _ _ _ _ _ => true
  | .vkCmdBindIndexBuffer _ _ _ _ => true
  | _ => false

def Call.isBindOrDraw (c : Call) : Bool := c.isBind || c.isDraw

def Call.isBeginRecording : Call → Bool
  | .beginRecording _ => true
  | _ => false

def Call.isEndRecording : Call → Bool
  | .endRecording _ => true
  | _ => false

def Call.isBeginRenderPass : Call → Bool
  | .beginRenderPass _ _ _ => true
  | _ => false

def Call.isEndRenderPass : Call → Bool
  | .endRenderPass _ _ => true
  | _ => false

def Call.isLogger : Call → Bool
  | .loggerInfo _ => true
  | .loggerError _ => true
  | _ => false

/-- The index count of an indexed draw. -/
def Call.indexCount? : Call → Option Nat
  | .vkCmdDrawIndexed _ indexCount _ _ _ _ => some indexCount
  | _ => none

/-- The vertex count of a non-indexed draw. -/
def Call.vertexCount? : Call → Option Nat
  | .vkCmdDraw _ vertexCount _ _ _ => some vertexCount
  | _ => none

/-- The member a call acquires, if it acquires one. -/
def Call.acquires : Call → Option Resource
  | .makeShared res => some res
  | .vmaCreateAllocator _ => some .allocator
  | .newMesh _ _ _ _ => some .mesh
  | _ => none

/-- The member a call releases, if it releases one. -/
def Call.releases : Call → Option Resource
  | .reset res => some res
  | .vmaDestroyAllocator _ => some .allocator
  | .deleteMesh _ => some .mesh
  | _ => none

/-- The members a trace acquires, in order. -/
def acquisitionOrder (t : List Call) : List Resource := t.filterMap Call.acquires

/-- The members a trace releases, in order. -/
def releaseOrder (t : List Call) : List Resource := t.filterMap Call.releases

/-- The member of the renderer `r` a call releases, operands included: destroying an
allocator releases the allocator of `r` only if the handle passed is the one `r` holds,
and deleting a mesh releases the mesh of `r` only if the pointer passed is the one `r`
holds. -/
def Call.releasesOf (r : VulkanRenderer) : Call → Option Resource
  | .reset res => some res
  | .vmaDestroyAllocator allocator =>
      if allocator = r.vkallocator then some .allocator else none
  | .deleteMesh ptr => if ptr = r.mesh then some .mesh else none
  | _ => none

/-- The members of the renderer `r` a trace releases, in order. -/
def releaseOrderOf (r : VulkanRenderer) (t : List Call) : List Resource :=
  t.filterMap (Call.releasesOf r)

/-- Every call satisfying `p` is at a smaller position than every call satisfying `q`. -/
def Precede (p q : Call → Bool) (l : List Call) : Prop :=
  ∀ (i j : Nat) (hi : i < l.length) (hj : j < l.length),
    p l[i] = true → q l[j] = true → i < j

/-- The executable form of `Precede`: at a call satisfying `q`, neither that call nor any
later one satisfies `p`. -/
def allPrecede (p q : Call → Bool) : List Call → Bool
  | [] => true
  | c :: rest => (!q c || (!p c && rest.all (fun d => !p d))) && allPrecede p q rest

/-- The addresses of the meshes created and not yet deleted once the calls of a trace
have been made, starting from the meshes `live`. -/
def liveMeshesFrom : List Nat → List Call → List Nat
  | live, [] => live
  | live, .newMesh addr _ _ _ :: t => liveMeshesFrom (live ++ [addr]) t
  | live, .deleteMesh (some addr) :: t => liveMeshesFrom (live.erase addr) t
  | live, _ :: t => liveMeshesFrom live t

def liveMeshes (t : List Call) : List Nat := liveMeshesFrom [] t

/-- The calls of a trace up to, and without, the destruction of the allocator. -/
def beforeAllocatorDestroyed (t : List Call) : List Call :=
  t.takeWhile (fun c => decide (c.releases ≠ some Resource.allocator))

/-! ## The properties the specification states about `render()` -/

/-- The mesh object `render()` works with after `new Mesh(...)` and `load()`. -/
def meshOf (vs : List Vertex) (idx : List Nat) (env : RenderEnv) (r : VulkanRenderer) : Mesh :=
  { addr := env.meshAddr
    allocator := r.vkallocator
    vertices := vs
    indices := idx
    vertexBuffer := env.vertexBuffer
    indexBuffer := env.indexBuffer }

/-- The draw of one recording `rec` agrees with the mesh `(vs, idx)`: with a non-empty
index list there is exactly one draw, indexed, with index count `idx.length`, and an
index-buffer bind before it; with an empty index list there is exactly one draw,
non-indexed, with vertex count `vs.length`, and no index-buffer bind. -/
def DrawMatchesMesh (vs : List Vertex) (idx : List Nat) (rec : List Call) : Prop :=
  if idx = [] then
    (∃ d, rec.filter Call.isDraw = [d] ∧ d.vertexCount? = some vs.length) ∧
      rec.filter Call.isBindIndexBuffer = []
  else
    (∃ d, rec.filter Call.isDraw = [d] ∧ d.indexCount? = some idx.length) ∧
      rec.filter Call.isBindIndexBuffer ≠ [] ∧
      Precede Call.isBindIndexBuffer Call.isDraw rec

/-- One recording opens and closes its render pass exactly once, the opening before the
closing, both inside the recording bracket, with every bind and draw inside the pass. -/
def RenderPassBracketed (rec : List Call) : Prop :=
  rec.countP Call.isBeginRecording = 1 ∧ rec.countP Call.isEndRecording = 1 ∧
  rec.countP Call.isBeginRenderPass = 1 ∧ rec.countP Call.isEndRenderPass = 1 ∧
  Precede Call.isBeginRenderPass Call.isEndRenderPass rec ∧
  Precede Call.isBeginRecording Call.isBeginRenderPass rec ∧
  Precede Call.isEndRenderPass Call.isEndRecording rec ∧
  Precede Call.isBeginRenderPass Call.isBindOrDraw rec ∧
  Precede Call.isBindOrDraw Call.isEndRenderPass rec

/-- The recording the frame protocol prescribes for one framebuffer, in the words of the
specification: begin recording, begin render pass on the framebuffer, bind pipeline, bind
vertex buffer at offset 0, bind index buffer only when the index list is non-empty, one
draw, end render pass, end recording. -/
def specRecording (r : VulkanRenderer) (mesh : Mesh) (cb fb : Handle) (draw : Call) : List Call :=
  [.beginRecording cb,
   .beginRenderPass r.renderPass.renderPass cb fb,
   .vkCmdBindPipeline cb VK_PIPELINE_BIND_POINT_GRAPHICS r.graphicPipeline.pipeline,
   .vkCmdBindVertexBuffers cb 0 1 mesh.vertexBuffer 0] ++
  (if mesh.indices = [] then []
   else [.vkCmdBindIndexBuffer cb mesh.indexBuffer 0 VK_INDEX_TYPE_UINT32]) ++
  [draw, .endRenderPass r.renderPass.renderPass cb, .endRecording cb]

/-- The draw call the loop body issues for a mesh into command buffer `cb`. -/
def drawOf (mesh : Mesh) (cb : Handle) : Call :=
  if mesh.indices = [] then .vkCmdDraw cb (toUint32 mesh.vertices.length) 1 0 0
  else .vkCmdDrawIndexed cb (toUint32 mesh.indices.length) 1 0 0 0

/-! ## Scenarios -/

/-- Calls of `render()` in a row on one renderer, one environment per call. -/
def renders : List RenderEnv → VulkanRenderer → Run VulkanRenderer
  | [], r => pure r
  | env :: envs, r => do
      let r ← VulkanRenderer.render env r
      renders envs r

/-- Calls of `render()` in a row followed by the destruction of the renderer. -/
def rendersThenDestruct (envs : List RenderEnv) (r : VulkanRenderer) : Run Unit := do
  let r ← renders envs r
  r.destruct

/-- A renderer with three swapchain images. -/
def sampleRenderer : VulkanRenderer :=
  { window := 1
    context := { inst := 2, physicalDevice := 3 }
    device := { device := 4, graphicQueue := 5, presentQueue := 6 }
    vkallocator := 7
    semaphores := { availableSemaphore := 8, finishedSemaphore := 9 }
    swapchain := { swapchain := 10 }
    renderPass := { renderPass := 11 }
    framebuffers := { framebuffers := [31, 32, 33] }
    graphicPipeline := { pipeline := 12 }
    commandPool := { commandPool := 13 }
    commandBuffer := { commandBuffers := [41, 42, 43] }
    mesh := none }

/-- The environment in which the construction of `sampleRenderer` succeeds. -/
def sampleConstructEnv : ConstructEnv :=
  { context := .ok sampleRenderer.context
    device := .ok sampleRenderer.device
    allocator := { vmaCreateAllocator := VK_SUCCESS, allocatorOut := 7 }
    semaphores := .ok sampleRenderer.semaphores
    swapchain := .ok sampleRenderer.swapchain
    renderPass := .ok sampleRenderer.renderPass
    framebuffers := .ok sampleRenderer.framebuffers
    graphicPipeline := .ok sampleRenderer.graphicPipeline
    commandPool := .ok sampleRenderer.commandPool
    commandBuffer := .ok sampleRenderer.commandBuffer
    meshPointer := none }

/-- The first `new Mesh` returns address 100 and its upload is accepted. -/
def sampleRenderEnv : RenderEnv :=
  { meshAddr := 100, vertexBuffer := 101, indexBuffer := 102, meshLoad := .ok () }

/-- The second `new Mesh` returns address 200 and its upload is accepted. -/
def secondRenderEnv : RenderEnv :=
  { meshAddr := 200, vertexBuffer := 201, indexBuffer := 202, meshLoad := .ok () }

/-- The allocator rejects the upload of `load()`. -/
def failedLoadEnv : RenderEnv := { sampleRenderEnv with meshLoad := .error "out of memory" }

/-- Every call succeeds and image 1 is acquired. -/
def samplePresentEnv : PresentEnv :=
  { vkAcquireNextImageKHR := VK_SUCCESS
    imageIndex := 1
    vkQueueSubmit := VK_SUCCESS
    vkQueuePresentKHR := VK_SUCCESS
    vkQueueWaitIdle := VK_SUCCESS }

/-- The queue submission reports `VK_ERROR_DEVICE_LOST`. -/
def failedSubmitEnv : PresentEnv := { samplePresentEnv with vkQueueSubmit := -4 }

/-- The acquire call reports an out-of-date swapchain. -/
def failedAcquireEnv : PresentEnv :=
  { samplePresentEnv with vkAcquireNextImageKHR := VK_ERROR_OUT_OF_DATE_KHR }

/-- The present call reports an out-of-date swapchain. -/
def failedPresentEnv : PresentEnv :=
  { samplePresentEnv with vkQueuePresentKHR := VK_ERROR_OUT_OF_DATE_KHR }

/-- The allocator library reports a failure and leaves a null handle. -/
def failedAllocatorEnv : AllocatorEnv :=
  { vmaCreateAllocator := VK_ERROR_INITIALIZATION_FAILED, allocatorOut := VK_NULL_HANDLE }

/-! ## Lemmas on the effect layer and on lists -/

open VulkanRenderer

theorem run_bind_eq {α β : Type} (x : Run α) (f : α → Run β) : (x >>= f) = Run.bind x f := rfl

theorem run_pure_eq {α : Type} (a : α) : (pure a : Run α) = Run.pure a := rfl

theorem precede_cons (p q : Call → Bool) (c : Call) (rest : List Call) :
    Precede p q (c :: rest) ↔
      (q c = true → p c = false ∧ ∀ d ∈ rest, p d = false) ∧ Precede p q rest := by
  constructor
  · intro h
    refine ⟨fun hq => ⟨?_, ?_⟩, ?_⟩
    · by_contra hp
      have := h 0 0 (by simp) (by simp) (by simpa using hp) hq
      omega
    · intro d hd
      obtain ⟨k, hk, rfl⟩ := List.getElem_of_mem hd
      by_contra hp
      have := h (k + 1) 0 (by simp; omega) (by simp) (by simpa using hp) hq
      omega
    · intro i j hi hj hp hq
      have := h (i + 1) (j + 1) (by simp; omega) (by simp; omega) (by simpa using hp)
        (by simpa using hq)
      omega
  · rintro ⟨h0, hrest⟩ i j hi hj hp hq
    cases i with
    | zero =>
        cases j with
        | zero =>
            simp only [List.getElem_cons_zero] at hp hq
            rw [(h0 hq).1] at hp
            exact absurd hp (by simp)
        | succ j => omega
    | succ i =>
        cases j with
        | zero =>
            simp only [List.getElem_cons_zero, List.getElem_cons_succ] at hp hq
            rw [(h0 hq).2 _ (List.getElem_mem _)] at hp
            exact absurd hp (by simp)
        | succ j =>
            simp only [List.getElem_cons_succ] at hp hq
            have := hrest i j (by simpa using hi) (by simpa using hj) hp hq
            omega

/-- The executable check decides `Precede`. -/
theorem allPrecede_iff (p q : Call → Bool) :
    ∀ l : List Call, allPrecede p q l = true ↔ Precede p q l
  | [] => by
      simp only [allPrecede, true_iff]
      intro i j hi
      simp at hi
  | c :: rest => by
      rw [precede_cons, ← allPrecede_iff p q rest]
      cases hq : q c <;> cases hp : p c <;> simp [allPrecede, hq, hp]

theorem map_fst_zip_eq_take : ∀ (l₁ l₂ : List Handle),
    (l₁.zip l₂).map Prod.fst = l₁.take l₂.length
  | [], _ => by simp
  | _ :: _, [] => by simp
  | a :: l₁, b :: l₂ => by simp [map_fst_zip_eq_take l₁ l₂]

theorem nodup_map_fst_zip (l₁ l₂ : List Handle) (h : l₁.Nodup) :
    ((l₁.zip l₂).map Prod.fst).Nodup := by
  rw [map_fst_zip_eq_take]
  exact List.Nodup.sublist (List.take_sublist _ _) h

theorem getElem?_zip_of_getElem? (l₁ l₂ : List Handle) (i : Nat) (a b : Handle)
    (h₁ : l₁[i]? = some a) (h₂ : l₂[i]? = some b) : (l₁.zip l₂)[i]? = some (a, b) := by
  obtain ⟨h₁, rfl⟩ := List.getElem?_eq_some.1 h₁
  obtain ⟨h₂, rfl⟩ := List.getElem?_eq_some.1 h₂
  have hl : i < (l₁.zip l₂).length := by simp; omega
  rw [List.getElem?_eq_getElem hl, List.getElem_zip]

theorem mem_zip_of_getElem? (l₁ l₂ : List Handle) (i : Nat) (a b : Handle)
    (h₁ : l₁[i]? = some a) (h₂ : l₂[i]? = some b) : (a, b) ∈ l₁.zip l₂ := by
  obtain ⟨hl, e⟩ := List.getElem?_eq_some.1 (getElem?_zip_of_getElem? l₁ l₂ i a b h₁ h₂)
  rw [← e]
  exact List.getElem_mem hl

theorem not_mem_take_of_nodup (l : List Handle) (n j : Nat) (a : Handle) (hnd : l.Nodup)
    (hj : n ≤ j) (ha : l[j]? = some a) : a ∉ l.take n := by
  obtain ⟨hjl, rfl⟩ := List.getElem?_eq_some.1 ha
  intro hmem
  obtain ⟨k, hk, e⟩ := List.getElem_of_mem hmem
  rw [List.getElem_take] at e
  have hk' : k < n := by
    have := hk
    simp at this
    omega
  have := (List.Nodup.getElem_inj_iff hnd).1 e
  omega

/-! ## Closed forms of the member functions -/

theorem present_eq_of_index (env : PresentEnv) (r : VulkanRenderer) (cb : Handle)
    (hcb : r.commandBuffer.commandBuffers[env.imageIndex]? = some cb) :
    present env r =
      if env.vkQueueSubmit ≠ VK_SUCCESS then
        ⟨[.vkAcquireNextImageKHR r.device.device r.swapchain.swapchain UINT64_MAX
            r.semaphores.availableSemaphore VK_NULL_HANDLE,
          .vkQueueSubmit r.device.graphicQueue 1
            ⟨VK_STRUCTURE_TYPE_SUBMIT_INFO, 1, [r.semaphores.availableSemaphore],
              [VK_PIPELINE_STAGE_COLOR_ATTACHMENT_OUTPUT_BIT], 1, [cb], 1,
              [r.semaphores.finishedSemaphore]⟩ VK_NULL_HANDLE],
          .threw (.runtime_error "Impossible to submit draw command buffer")⟩
      else
        ⟨[.vkAcquireNextImageKHR r.device.device r.swapchain.swapchain UINT64_MAX
            r.semaphores.availableSemaphore VK_NULL_HANDLE,
          .vkQueueSubmit r.device.graphicQueue 1
            ⟨VK_STRUCTURE_TYPE_SUBMIT_INFO, 1, [r.semaphores.availableSemaphore],
              [VK_PIPELINE_STAGE_COLOR_ATTACHMENT_OUTPUT_BIT], 1, [cb], 1,
              [r.semaphores.finishedSemaphore]⟩ VK_NULL_HANDLE,
          .vkQueuePresentKHR r.device.presentQueue
            ⟨VK_STRUCTURE_TYPE_PRESENT_INFO_KHR, 1, [r.semaphores.finishedSemaphore], 1,
              [r.swapchain.swapchain], [env.imageIndex], none⟩,
          .vkQueueWaitIdle r.device.presentQueue],
          .returned ()⟩ := by
  by_cases hs : env.vkQueueSubmit = VK_SUCCESS <;>
    simp [present, run_bind_eq, run_pure_eq, Run.bind, Run.pure, callResult, vectorAt, hcb, hs,
      throwExn]

theorem present_eq_of_no_index (env : PresentEnv) (r : VulkanRenderer)
    (hcb : r.commandBuffer.commandBuffers[env.imageIndex]? = none) :
    present env r =
      ⟨[.vkAcquireNextImageKHR r.device.device r.swapchain.swapchain UINT64_MAX
          r.semaphores.availableSemaphore VK_NULL_HANDLE], .undefined⟩ := by
  simp [present, run_bind_eq, run_pure_eq, Run.bind, Run.pure, callResult, vectorAt, hcb,
    undefinedBehaviour]

theorem construct_eq_of_returned (env : ConstructEnv) (window : Handle) (r : VulkanRenderer)
    (h : (construct env window).result = .returned r) :
    (construct env window).trace =
      [.makeShared .context, .makeShared .device,
       .vmaCreateAllocator ⟨r.context.physicalDevice, r.device.device, r.context.inst,
         VK_API_VERSION_1_1⟩,
       .makeShared .semaphores, .makeShared .swapchain, .makeShared .renderPass,
       .makeShared .framebuffers, .makeShared .graphicPipeline, .makeShared .commandPool,
       .makeShared .commandBuffer] := by
  obtain ⟨c, d, a, s, sw, rp, fb, gp, cp, cb, mp⟩ := env
  rcases c with e | c
  · simp [construct, makeShared, tryCatchInitialisation, run_bind_eq, run_pure_eq, Run.bind,
      Run.pure, call, throwExn] at h
  rcases d with e | d
  · simp [construct, makeShared, tryCatchInitialisation, run_bind_eq, run_pure_eq, Run.bind,
      Run.pure, call, throwExn] at h
  rcases s with e | s
  · simp [construct, makeShared, tryCatchInitialisation, run_bind_eq, run_pure_eq, Run.bind,
      Run.pure, call, throwExn, createAllocator, callResult] at h
  rcases sw with e | sw
  · simp [construct, makeShared, tryCatchInitialisation, run_bind_eq, run_pure_eq, Run.bind,
      Run.pure, call, throwExn, createAllocator, callResult] at h
  rcases rp with e | rp
  · simp [construct, makeShared, tryCatchInitialisation, run_bind_eq, run_pure_eq, Run.bind,
      Run.pure, call, throwExn, createAllocator, callResult] at h
  rcases fb with e | fb
  · simp [construct, makeShared, tryCatchInitialisation, run_bind_eq, run_pure_eq, Run.bind,
      Run.pure, call, throwExn, createAllocator, callResult] at h
  rcases gp with e | gp
  · simp [construct, makeShared, tryCatchInitialisation, run_bind_eq, run_pure_eq, Run.bind,
      Run.pure, call, throwExn, createAllocator, callResult] at h
  rcases cp with e | cp
  · simp [construct, makeShared, tryCatchInitialisation, run_bind_eq, run_pure_eq, Run.bind,
      Run.pure, call, throwExn, createAllocator, callResult] at h
  rcases cb with e | cb
  · simp [construct, makeShared, tryCatchInitialisation, run_bind_eq, run_pure_eq, Run.bind,
      Run.pure, call, throwExn, createAllocator, callResult] at h
  simp [construct, makeShared, tryCatchInitialisation, run_bind_eq, run_pure_eq, Run.bind,
    Run.pure, call, throwExn, createAllocator, callResult] at h ⊢
  subst h
  simp

/-- After a successful construction the members hold exactly the objects the component
constructors and the allocator library handed out. -/
theorem construct_members_of_returned (env : ConstructEnv) (window : Handle)
    (r : VulkanRenderer) (h : (construct env window).result = .returned r) :
    env.context = .ok r.context ∧ env.device = .ok r.device ∧
    r.vkallocator = env.allocator.allocatorOut ∧
    env.semaphores = .ok r.semaphores ∧ env.swapchain = .ok r.swapchain ∧
    env.renderPass = .ok r.renderPass ∧ env.framebuffers = .ok r.framebuffers ∧
    env.graphicPipeline = .ok r.graphicPipeline ∧ env.commandPool = .ok r.commandPool ∧
    env.commandBuffer = .ok r.commandBuffer ∧ r.mesh = env.meshPointer ∧
    r.window = window := by
  obtain ⟨c, d, a, s, sw, rp, fb, gp, cp, cb, mp⟩ := env
  rcases c with e | c
  · simp [construct, makeShared, tryCatchInitialisation, run_bind_eq, run_pure_eq, Run.bind,
      Run.pure, call, throwExn] at h
  rcases d with e | d
  · simp [construct, makeShared, tryCatchInitialisation, run_bind_eq, run_pure_eq, Run.bind,
      Run.pure, call, throwExn] at h
  rcases s with e | s
  · simp [construct, makeShared, tryCatchInitialisation, run_bind_eq, run_pure_eq, Run.bind,
      Run.pure, call, throwExn, createAllocator, callResult] at h
  rcases sw with e | sw
  · simp [construct, makeShared, tryCatchInitialisation, run_bind_eq, run_pure_eq, Run.bind,
      Run.pure, call, throwExn, createAllocator, callResult] at h
  rcases rp with e | rp
  · simp [construct, makeShared, tryCatchInitialisation, run_bind_eq, run_pure_eq, Run.bind,
      Run.pure, call, throwExn, createAllocator, callResult] at h
  rcases fb with e | fb
  · simp [construct, makeShared, tryCatchInitialisation, run_bind_eq, run_pure_eq, Run.bind,
      Run.pure, call, throwExn, createAllocator, callResult] at h
  rcases gp with e | gp
  · simp [construct, makeShared, tryCatchInitialisation, run_bind_eq, run_pure_eq, Run.bind,
      Run.pure, call, throwExn, createAllocator, callResult] at h
  rcases cp with e | cp
  · simp [construct, makeShared, tryCatchInitialisation, run_bind_eq, run_pure_eq, Run.bind,
      Run.pure, call, throwExn, createAllocator, callResult] at h
  rcases cb with e | cb
  · simp [construct, makeShared, tryCatchInitialisation, run_bind_eq, run_pure_eq, Run.bind,
      Run.pure, call, throwExn, createAllocator, callResult] at h
  simp [construct, makeShared, tryCatchInitialisation, run_bind_eq, run_pure_eq, Run.bind,
    Run.pure, call, throwExn, createAllocator, callResult] at h
  subst h
  simp

theorem destruct_eq (r : VulkanRenderer) :
    destruct r =
      ⟨[.deleteMesh r.mesh, .reset .commandBuffer, .reset .commandPool, .reset .graphicPipeline,
        .reset .framebuffers, .reset .renderPass, .reset .swapchain, .reset .semaphores,
        .vmaDestroyAllocator r.vkallocator, .reset .device, .reset .context], .returned ()⟩ := by
  simp [destruct, run_bind_eq, Run.bind, call]

theorem recordCommands_eq (r : VulkanRenderer) (mesh : Mesh) (cb fb : Handle) :
    recordCommands r mesh cb fb =
      ⟨[.beginRecording cb, .beginRenderPass r.renderPass.renderPass cb fb,
        .vkCmdBindPipeline cb VK_PIPELINE_BIND_POINT_GRAPHICS r.graphicPipeline.pipeline,
        .vkCmdBindVertexBuffers cb 0 1 mesh.vertexBuffer 0] ++
        (if mesh.indices = [] then
          [.loggerInfo "Drawing without index",
           .vkCmdDraw cb (toUint32 mesh.vertices.length) 1 0 0]
         else
          [.loggerInfo "Drawing with index",
           .vkCmdBindIndexBuffer cb mesh.indexBuffer 0 VK_INDEX_TYPE_UINT32,
           .vkCmdDrawIndexed cb (toUint32 mesh.indices.length) 1 0 0 0]) ++
        [.endRenderPass r.renderPass.renderPass cb, .endRecording cb], .returned ()⟩ := by
  by_cases h : mesh.indices = [] <;>
    simp [recordCommands, run_bind_eq, Run.bind, call, h]

theorem recordCommands_result (r : VulkanRenderer) (mesh : Mesh) (cb fb : Handle) :
    (recordCommands r mesh cb fb).result = .returned () := by
  rw [recordCommands_eq]

theorem recordLoop_cons (r : VulkanRenderer) (mesh : Mesh) (cbs : List Handle) (fb : Handle)
    (rest : List Handle) (i : Nat) (hi : i < cbs.length) :
    recordLoop r mesh cbs (fb :: rest) i =
      if INT_MAX < i + 1 then
        ⟨(recordCommands r mesh cbs[i] fb).trace, .undefined⟩
      else
        ⟨(recordCommands r mesh cbs[i] fb).trace ++ (recordLoop r mesh cbs rest (i + 1)).trace,
          (recordLoop r mesh cbs rest (i + 1)).result⟩ := by
  by_cases hlt : INT_MAX < i + 1 <;>
    simp [recordLoop, vectorAt, List.getElem?_eq_getElem hi, run_bind_eq, Run.bind, Run.pure,
      hlt, recordCommands_result, undefinedBehaviour]

/-- Within the range of the `int` counter the loop visits every framebuffer and returns. -/
theorem recordLoop_eq (r : VulkanRenderer) (mesh : Mesh) (cbs : List Handle) :
    ∀ (fbs : List Handle) (i : Nat), i + fbs.length ≤ INT_MAX → i + fbs.length ≤ cbs.length →
      recordLoop r mesh cbs fbs i =
        ⟨((cbs.drop i).zip fbs).flatMap (fun p => (recordCommands r mesh p.1 p.2).trace),
          .returned ()⟩
  | [], i, _, _ => by simp [recordLoop, run_pure_eq, Run.pure]
  | fb :: rest, i, h1, h2 => by
      simp only [List.length_cons] at h1 h2
      have hi : i < cbs.length := by omega
      have ih := recordLoop_eq r mesh cbs rest (i + 1) (by omega) (by omega)
      have hlt : ¬ INT_MAX < i + 1 := by omega
      rw [recordLoop_cons r mesh cbs fb rest i hi, if_neg hlt, ih, List.drop_eq_getElem_cons hi,
        List.zip_cons_cons, List.flatMap_cons]

/-- When the upload is accepted and the loop stays within defined behaviour, `render()`
creates and loads the mesh, visits every framebuffer in order and returns. -/
theorem renderWith_eq (vs : List Vertex) (idx : List Nat) (env : RenderEnv) (r : VulkanRenderer)
    (hload : env.meshLoad = .ok ())
    (hn : r.framebuffers.framebuffers.length ≤ INT_MAX)
    (hcb : r.framebuffers.framebuffers.length ≤ r.commandBuffer.commandBuffers.length) :
    renderWith vs idx env r =
      ⟨.newMesh env.meshAddr r.vkallocator vs idx :: .meshLoad env.meshAddr ::
        (r.commandBuffer.commandBuffers.zip r.framebuffers.framebuffers).flatMap
          (fun p => (recordCommands r (meshOf vs idx env r) p.1 p.2).trace),
        .returned { r with mesh := some env.meshAddr }⟩ := by
  have h := recordLoop_eq r (meshOf vs idx env r)
    r.commandBuffer.commandBuffers r.framebuffers.framebuffers 0 (by omega) (by omega)
  simp only [List.drop_zero, meshOf] at h
  simp [renderWith, Mesh.load, hload, run_bind_eq, run_pure_eq, Run.bind, Run.pure, call, h,
    meshOf]

/-- When the allocator rejects the upload, `render()` throws the allocation error right
after `load()` and records nothing. -/
theorem renderWith_load_failure (vs : List Vertex) (idx : List Nat) (env : RenderEnv)
    (r : VulkanRenderer) (what : String) (hload : env.meshLoad = .error what) :
    renderWith vs idx env r =
      ⟨[.newMesh env.meshAddr r.vkallocator vs idx, .meshLoad env.meshAddr],
        .threw (.allocation_error what)⟩ := by
  simp [renderWith, Mesh.load, hload, run_bind_eq, run_pure_eq, Run.bind, Run.pure, call]

/-- A run of `render()` that returns hands on the renderer with only `mesh` changed. -/
theorem renderWith_returned_state (vs : List Vertex) (idx : List Nat) (env : RenderEnv)
    (r r' : VulkanRenderer) (h : (renderWith vs idx env r).result = .returned r') :
    r' = { r with mesh := some env.meshAddr } := by
  cases hload : env.meshLoad with
  | error what =>
      rw [renderWith_load_failure vs idx env r what hload] at h
      simp at h
  | ok u =>
      cases hl : (recordLoop r (meshOf vs idx env r) r.commandBuffer.commandBuffers
          r.framebuffers.framebuffers 0).result with
      | returned u' =>
          simp only [meshOf] at hl
          simp [renderWith, Mesh.load, hload, run_bind_eq, run_pure_eq, Run.bind, Run.pure,
            call, hl] at h
          exact h.symm
      | threw e =>
          simp only [meshOf] at hl
          simp [renderWith, Mesh.load, hload, run_bind_eq, run_pure_eq, Run.bind, Run.pure,
            call, hl] at h
      | undefined =>
          simp only [meshOf] at hl
          simp [renderWith, Mesh.load, hload, run_bind_eq, run_pure_eq, Run.bind, Run.pure,
            call, hl] at h

/-- Every command of one loop iteration goes into the command buffer of that iteration. -/
theorem commandBuffer_of_mem_recordCommands (r : VulkanRenderer) (mesh : Mesh)
    (cb fb cb' : Handle) (c : Call) (hc : c ∈ (recordCommands r mesh cb fb).trace)
    (ht : c.commandBuffer = some cb') : cb' = cb := by
  rw [recordCommands_eq] at hc
  by_cases h : mesh.indices = []
  · simp [h] at hc
    rcases hc with rfl | rfl | rfl | rfl | rfl | rfl | rfl | rfl <;>
      simp [Call.commandBuffer] at ht <;> exact ht.symm
  · simp [h] at hc
    rcases hc with rfl | rfl | rfl | rfl | rfl | rfl | rfl | rfl | rfl <;>
      simp [Call.commandBuffer] at ht <;> exact ht.symm

/-! ## What is recorded into one command buffer -/

theorem recordedInto_append (t u : List Call) (cb : Handle) :
    recordedInto (t ++ u) cb = recordedInto t cb ++ recordedInto u cb := by
  simp [recordedInto]

theorem recordedInto_recordCommands_self (r : VulkanRenderer) (mesh : Mesh) (cb fb : Handle) :
    recordedInto (recordCommands r mesh cb fb).trace cb =
      specRecording r mesh cb fb (drawOf mesh cb) := by
  rw [recordCommands_eq]
  by_cases h : mesh.indices = [] <;>
    simp [recordedInto, specRecording, drawOf, h, Call.commandBuffer]

theorem recordedInto_recordCommands_ne (r : VulkanRenderer) (mesh : Mesh) (c cb fb : Handle)
    (hne : c ≠ cb) : recordedInto (recordCommands r mesh c fb).trace cb = [] := by
  rw [recordCommands_eq]
  by_cases h : mesh.indices = [] <;>
    simp [recordedInto, h, Call.commandBuffer, hne]

theorem recordedInto_flatMap_not_mem (r : VulkanRenderer) (mesh : Mesh) (cb : Handle) :
    ∀ ps : List (Handle × Handle), cb ∉ ps.map Prod.fst →
      recordedInto (ps.flatMap (fun p => (recordCommands r mesh p.1 p.2).trace)) cb = []
  | [], _ => by simp [recordedInto]
  | p :: ps, h => by
      simp only [List.map_cons, List.mem_cons, not_or] at h
      rw [List.flatMap_cons, recordedInto_append,
        recordedInto_recordCommands_ne r mesh p.1 cb p.2 (fun e => h.1 e.symm),
        recordedInto_flatMap_not_mem r mesh cb ps h.2]
      rfl

theorem recordedInto_flatMap_mem (r : VulkanRenderer) (mesh : Mesh) (cb fb : Handle) :
    ∀ ps : List (Handle × Handle), (ps.map Prod.fst).Nodup → (cb, fb) ∈ ps →
      recordedInto (ps.flatMap (fun p => (recordCommands r mesh p.1 p.2).trace)) cb =
        specRecording r mesh cb fb (drawOf mesh cb)
  | [], _, h => by simp at h
  | p :: ps, hnd, h => by
      simp only [List.map_cons, List.nodup_cons] at hnd
      rw [List.flatMap_cons, recordedInto_append]
      rcases List.mem_cons.1 h with h | h
      · subst h
        rw [recordedInto_recordCommands_self, recordedInto_flatMap_not_mem r mesh cb ps hnd.1,
          List.append_nil]
      · have hne : p.1 ≠ cb := by
          intro e
          apply hnd.1
          rw [e]
          exact List.mem_map_of_mem Prod.fst h
        rw [recordedInto_recordCommands_ne r mesh p.1 cb p.2 hne,
          recordedInto_flatMap_mem r mesh cb fb ps hnd.2 h, List.nil_append]

/-- With pairwise distinct command buffers, command buffer `i` holds exactly the
prescribed recording of framebuffer `i`. -/
theorem recordedInto_renderWith (vs : List Vertex) (idx : List Nat) (env : RenderEnv)
    (r : VulkanRenderer)
    (hload : env.meshLoad = .ok ())
    (hn : r.framebuffers.framebuffers.length ≤ INT_MAX)
    (hcb : r.framebuffers.framebuffers.length ≤ r.commandBuffer.commandBuffers.length)
    (hnd : r.commandBuffer.commandBuffers.Nodup) (i : Nat) (cb fb : Handle)
    (hc : r.commandBuffer.commandBuffers[i]? = some cb)
    (hf : r.framebuffers.framebuffers[i]? = some fb) :
    recordedInto (renderWith vs idx env r).trace cb =
      specRecording r (meshOf vs idx env r) cb fb (drawOf (meshOf vs idx env r) cb) := by
  rw [renderWith_eq vs idx env r hload hn hcb]
  have h := recordedInto_flatMap_mem r (meshOf vs idx env r) cb fb
    (r.commandBuffer.commandBuffers.zip r.framebuffers.framebuffers)
    (nodup_map_fst_zip _ _ hnd) (mem_zip_of_getElem? _ _ i cb fb hc hf)
  rw [← h]
  simp [recordedInto, Call.commandBuffer]

theorem recordedInto_renderWith_beyond (vs : List Vertex) (idx : List Nat) (env : RenderEnv)
    (r : VulkanRenderer)
    (hload : env.meshLoad = .ok ())
    (hn : r.framebuffers.framebuffers.length ≤ INT_MAX)
    (hcb : r.framebuffers.framebuffers.length ≤ r.commandBuffer.commandBuffers.length)
    (hnd : r.commandBuffer.commandBuffers.Nodup) (j : Nat) (cb : Handle)
    (hj : r.framebuffers.framebuffers.length ≤ j)
    (hc : r.commandBuffer.commandBuffers[j]? = some cb) :
    recordedInto (renderWith vs idx env r).trace cb = [] := by
  rw [renderWith_eq vs idx env r hload hn hcb]
  have h := recordedInto_flatMap_not_mem r (meshOf vs idx env r) cb
    (r.commandBuffer.commandBuffers.zip r.framebuffers.framebuffers)
    (by rw [map_fst_zip_eq_take]; exact not_mem_take_of_nodup _ _ j cb hnd hj hc)
  rw [← h]
  simp [recordedInto, Call.commandBuffer]

theorem recordCommands_without_logger (r : VulkanRenderer) (mesh : Mesh) (cb fb : Handle) :
    (recordCommands r mesh cb fb).trace.filter (fun c => !c.isLogger) =
      specRecording r mesh cb fb (drawOf mesh cb) := by
  rw [recordCommands_eq]
  by_cases h : mesh.indices = [] <;>
    simp [specRecording, drawOf, h, Call.isLogger]

theorem drawOf_isDraw (mesh : Mesh) (cb : Handle) : (drawOf mesh cb).isDraw = true := by
  by_cases h : mesh.indices = [] <;> simp [drawOf, h, Call.isDraw]

theorem drawMatchesMesh_specRecording (r : VulkanRenderer) (vs : List Vertex) (idx : List Nat)
    (env : RenderEnv) (cb fb : Handle) (hv : idx = [] → vs.length < 2 ^ 32)
    (hi : idx.length < 2 ^ 32) :
    DrawMatchesMesh vs idx
      (specRecording r (meshOf vs idx env r) cb fb (drawOf (meshOf vs idx env r) cb)) := by
  by_cases h : idx = []
  · have hv' := hv h
    simp [DrawMatchesMesh, specRecording, drawOf, meshOf, h, Call.isDraw,
      Call.isBindIndexBuffer, Call.vertexCount?, toUint32]
    omega
  · simp [DrawMatchesMesh, specRecording, drawOf, meshOf, h, Call.isDraw,
      Call.isBindIndexBuffer, Call.indexCount?, toUint32, ← allPrecede_iff, allPrecede]
    omega

theorem renderPassBracketed_specRecording (r : VulkanRenderer) (mesh : Mesh) (cb fb : Handle) :
    RenderPassBracketed (specRecording r mesh cb fb (drawOf mesh cb)) := by
  by_cases h : mesh.indices = [] <;>
    simp [RenderPassBracketed, specRecording, drawOf, h, Call.isDraw, Call.isBind,
      Call.isBindOrDraw, Call.isBeginRecording, Call.isEndRecording, Call.isBeginRenderPass,
      Call.isEndRenderPass, ← allPrecede_iff, allPrecede]

/-! ## The claims -/

/-- C1: for every mesh whose draw count is one the `uint32_t` count parameter of the draw
call can carry (fewer than `2 ^ 32` indices, and fewer than `2 ^ 32` vertices when there
are no indices) and every framebuffer recorded by `render()`: the recording of one loop
iteration contains exactly one draw; with a non-empty index list it is an indexed draw
whose index count is the length of the index list, preceded by an index-buffer bind; with
an empty index list it is a non-indexed draw whose vertex count is the length of the
vertex list, and there is no index-buffer bind.  When the upload of the mesh is accepted
and the loop stays within defined behaviour (at most `INT_MAX` framebuffers, a command
buffer for each), the trace of `render()` is the creation and the load of the mesh followed
by these recordings, one per framebuffer, and with pairwise distinct command buffers what
is recorded into command buffer `i` has the same property. -/
theorem renderWith_draw_matches_mesh (vs : List Vertex) (idx : List Nat) (env : RenderEnv)
    (r : VulkanRenderer) (hv : idx = [] → vs.length < 2 ^ 32) (hi : idx.length < 2 ^ 32) :
    (∀ cb fb : Handle, DrawMatchesMesh vs idx
      (recordedInto (recordCommands r (meshOf vs idx env r) cb fb).trace cb)) ∧
    (env.meshLoad = .ok () → r.framebuffers.framebuffers.length ≤ INT_MAX →
      r.framebuffers.framebuffers.length ≤ r.commandBuffer.commandBuffers.length →
      renderWith vs idx env r =
        ⟨.newMesh env.meshAddr r.vkallocator vs idx :: .meshLoad env.meshAddr ::
          (r.commandBuffer.commandBuffers.zip r.framebuffers.framebuffers).flatMap
            (fun p => (recordCommands r (meshOf vs idx env r) p.1 p.2).trace),
          .returned { r with mesh := some env.meshAddr }⟩ ∧
      (r.commandBuffer.commandBuffers.Nodup →
        ∀ (i : Nat) (cb : Handle), i < r.framebuffers.framebuffers.length →
          r.commandBuffer.commandBuffers[i]? = some cb →
          DrawMatchesMesh vs idx (recordedInto (renderWith vs idx env r).trace cb))) := by
  refine ⟨fun cb fb => ?_, fun hload hn hcb => ⟨renderWith_eq vs idx env r hload hn hcb, ?_⟩⟩
  · rw [recordedInto_recordCommands_self]
    exact drawMatchesMesh_specRecording r vs idx env cb fb hv hi
  · intro hnd i cb hlt hc
    rw [recordedInto_renderWith vs idx env r hload hn hcb hnd i cb _ hc
      (List.getElem?_eq_getElem hlt)]
    exact drawMatchesMesh_specRecording r vs idx env cb _ hv hi

/-- C1, the scenario of the specification, on `render()` itself and on the quad without
indices: the quad with indices `[0,1,2,2,3,0]` gives an indexed draw of count 6 in the
first command buffer, and the quad with no indices a non-indexed draw of count 4. -/
theorem renderWith_draw_matches_mesh_witness :
    DrawMatchesMesh vertices indices
      (recordedInto (render sampleRenderEnv sampleRenderer).trace 41) ∧
    DrawMatchesMesh vertices []
      (recordedInto (renderWith vertices [] sampleRenderEnv sampleRenderer).trace 41) ∧
    (recordedInto (render sampleRenderEnv sampleRenderer).trace 41).filter Call.isDraw =
      [.vkCmdDrawIndexed 41 6 1 0 0 0] ∧
    (recordedInto (renderWith vertices [] sampleRenderEnv sampleRenderer).trace 41).filter
      Call.isDraw = [.vkCmdDraw 41 4 1 0 0] :=
  ⟨((renderWith_draw_matches_mesh vertices indices sampleRenderEnv sampleRenderer
      (by decide) (by decide)).2 rfl (by decide) (by decide)).2 (by decide) 0 41
      (by decide) (by decide),
   ((renderWith_draw_matches_mesh vertices [] sampleRenderEnv sampleRenderer
      (by decide) (by decide)).2 rfl (by decide) (by decide)).2 (by decide) 0 41
      (by decide) (by decide),
   by decide, by decide⟩

/-- C2: in every run of `present()` in which all API calls succeed (the acquired image
index denoting a command buffer), the calls are exactly: acquire with timeout
`UINT64_MAX` signalling the available semaphore; one submit to the graphics queue of the
one command buffer at the acquired index, waiting on exactly the available semaphore and
signalling exactly the finished semaphore; one present of that image index waiting on
exactly the finished semaphore; wait for the present queue to be idle.  And in every run
whatsoever, each submit waits on exactly the available semaphore and each present on
exactly the finished semaphore. -/
theorem present_call_sequence (env : PresentEnv) (r : VulkanRenderer) :
    (∀ cb : Handle, env.vkAcquireNextImageKHR = VK_SUCCESS → env.vkQueueSubmit = VK_SUCCESS →
      env.vkQueuePresentKHR = VK_SUCCESS → env.vkQueueWaitIdle = VK_SUCCESS →
      r.commandBuffer.commandBuffers[env.imageIndex]? = some cb →
      present env r =
        ⟨[.vkAcquireNextImageKHR r.device.device r.swapchain.swapchain UINT64_MAX
            r.semaphores.availableSemaphore VK_NULL_HANDLE,
          .vkQueueSubmit r.device.graphicQueue 1
            { sType := VK_STRUCTURE_TYPE_SUBMIT_INFO
              waitSemaphoreCount := 1
              pWaitSemaphores := [r.semaphores.availableSemaphore]
              pWaitDstStageMask := [VK_PIPELINE_STAGE_COLOR_ATTACHMENT_OUTPUT_BIT]
              commandBufferCount := 1
              pCommandBuffers := [cb]
              signalSemaphoreCount := 1
              pSignalSemaphores := [r.semaphores.finishedSemaphore] } VK_NULL_HANDLE,
          .vkQueuePresentKHR r.device.presentQueue
            { sType := VK_STRUCTURE_TYPE_PRESENT_INFO_KHR
              waitSemaphoreCount := 1
              pWaitSemaphores := [r.semaphores.finishedSemaphore]
              swapchainCount := 1
              pSwapchains := [r.swapchain.swapchain]
              pImageIndices := [env.imageIndex]
              pResults := none },
          .vkQueueWaitIdle r.device.presentQueue], .returned ()⟩) ∧
    (∀ (queue : Handle) (n : Nat) (info : VkSubmitInfo) (fence : Handle),
      Call.vkQueueSubmit queue n info fence ∈ (present env r).trace →
      info.waitSemaphoreCount = 1 ∧
        info.pWaitSemaphores = [r.semaphores.availableSemaphore]) ∧
    (∀ (queue : Handle) (info : VkPresentInfoKHR),
      Call.vkQueuePresentKHR queue info ∈ (present env r).trace →
      info.waitSemaphoreCount = 1 ∧
        info.pWaitSemaphores = [r.semaphores.finishedSemaphore]) := by
  refine ⟨?_, ?_, ?_⟩
  · intro cb _ hs _ _ hcb
    rw [present_eq_of_index env r cb hcb, if_neg (by simpa using hs)]
  · intro queue n info fence hmem
    cases hcb : r.commandBuffer.commandBuffers[env.imageIndex]? with
    | none =>
        rw [present_eq_of_no_index env r hcb] at hmem
        simp at hmem
    | some cb =>
        rw [present_eq_of_index env r cb hcb] at hmem
        by_cases hs : env.vkQueueSubmit = VK_SUCCESS
        · simp [hs] at hmem
          simp [hmem.2.2.1]
        · simp [hs] at hmem
          simp [hmem.2.2.1]
  · intro queue info hmem
    cases hcb : r.commandBuffer.commandBuffers[env.imageIndex]? with
    | none =>
        rw [present_eq_of_no_index env r hcb] at hmem
        simp at hmem
    | some cb =>
        rw [present_eq_of_index env r cb hcb] at hmem
        by_cases hs : env.vkQueueSubmit = VK_SUCCESS
        · simp [hs] at hmem
          simp [hmem.2]
        · simp [hs] at hmem

/-- C2 on the sample renderer: image 1 is acquired and command buffer 42 is submitted. -/
theorem present_call_sequence_witness :
    sampleRenderer.commandBuffer.commandBuffers[samplePresentEnv.imageIndex]? = some 42 ∧
    present samplePresentEnv sampleRenderer =
      ⟨[.vkAcquireNextImageKHR 4 10 UINT64_MAX 8 VK_NULL_HANDLE,
        .vkQueueSubmit 5 1
          ⟨VK_STRUCTURE_TYPE_SUBMIT_INFO, 1, [8],
            [VK_PIPELINE_STAGE_COLOR_ATTACHMENT_OUTPUT_BIT], 1, [42], 1, [9]⟩ VK_NULL_HANDLE,
        .vkQueuePresentKHR 6 ⟨VK_STRUCTURE_TYPE_PRESENT_INFO_KHR, 1, [9], 1, [10], [1], none⟩,
        .vkQueueWaitIdle 6], .returned ()⟩ :=
  ⟨by decide,
   (present_call_sequence samplePresentEnv sampleRenderer).1 42 (by decide) (by decide)
     (by decide) (by decide) (by decide)⟩

/-- C3: after a successful construction the constructor has acquired context, device,
allocator, semaphores, swapchain, render pass, framebuffers, pipeline, command pool and
command buffers, in this order, and the members of the renderer hold exactly what was
acquired.  A run of `render()` that returns changes the member `mesh` only.  The
destructor, run on that renderer with whatever mesh pointer `m` it holds by then, deletes
that mesh first and then releases these very members in exactly the reverse order: the
allocator it destroys is the handle the creation call of the constructor left; the
allocator goes before the device, and the device before the context. -/
theorem destruct_releases_in_reverse_of_construct (env : ConstructEnv) (window : Handle)
    (r : VulkanRenderer) (m : Option Nat)
    (h : (construct env window).result = .returned r) :
    (construct env window).trace =
      [.makeShared .context, .makeShared .device,
       .vmaCreateAllocator ⟨r.context.physicalDevice, r.device.device, r.context.inst,
         VK_API_VERSION_1_1⟩,
       .makeShared .semaphores, .makeShared .swapchain, .makeShared .renderPass,
       .makeShared .framebuffers, .makeShared .graphicPipeline, .makeShared .commandPool,
       .makeShared .commandBuffer] ∧
    acquisitionOrder (construct env window).trace =
      [.context, .device, .allocator, .semaphores, .swapchain, .renderPass, .framebuffers,
       .graphicPipeline, .commandPool, .commandBuffer] ∧
    (env.context = .ok r.context ∧ env.device = .ok r.device ∧
      r.vkallocator = env.allocator.allocatorOut ∧
      env.semaphores = .ok r.semaphores ∧ env.swapchain = .ok r.swapchain ∧
      env.renderPass = .ok r.renderPass ∧ env.framebuffers = .ok r.framebuffers ∧
      env.graphicPipeline = .ok r.graphicPipeline ∧ env.commandPool = .ok r.commandPool ∧
      env.commandBuffer = .ok r.commandBuffer) ∧
    (∀ (vs : List Vertex) (idx : List Nat) (e : RenderEnv) (r' : VulkanRenderer),
      (renderWith vs idx e r).result = .returned r' →
      r' = { r with mesh := some e.meshAddr }) ∧
    destruct { r with mesh := m } =
      ⟨[.deleteMesh m, .reset .commandBuffer, .reset .commandPool, .reset .graphicPipeline,
        .reset .framebuffers, .reset .renderPass, .reset .swapchain, .reset .semaphores,
        .vmaDestroyAllocator env.allocator.allocatorOut, .reset .device, .reset .context],
        .returned ()⟩ ∧
    releaseOrderOf { r with mesh := m } (destruct { r with mesh := m }).trace =
      Resource.mesh :: (acquisitionOrder (construct env window).trace).reverse ∧
    List.indexOf Resource.allocator
        (releaseOrderOf { r with mesh := m } (destruct { r with mesh := m }).trace) <
      List.indexOf Resource.device
        (releaseOrderOf { r with mesh := m } (destruct { r with mesh := m }).trace) ∧
    List.indexOf Resource.device
        (releaseOrderOf { r with mesh := m } (destruct { r with mesh := m }).trace) <
      List.indexOf Resource.context
        (releaseOrderOf { r with mesh := m } (destruct { r with mesh := m }).trace) := by
  have hmem := construct_members_of_returned env window r h
  have hrel : releaseOrderOf { r with mesh := m } (destruct { r with mesh := m }).trace =
      [.mesh, .commandBuffer, .commandPool, .graphicPipeline, .framebuffers, .renderPass,
       .swapchain, .semaphores, .allocator, .device, .context] := by
    rw [destruct_eq]
    simp [releaseOrderOf, Call.releasesOf]
  have hacq : acquisitionOrder (construct env window).trace =
      [.context, .device, .allocator, .semaphores, .swapchain, .renderPass, .framebuffers,
       .graphicPipeline, .commandPool, .commandBuffer] := by
    rw [construct_eq_of_returned env window r h]
    rfl
  refine ⟨construct_eq_of_returned env window r h, hacq,
    ⟨hmem.1, hmem.2.1, hmem.2.2.1, hmem.2.2.2.1, hmem.2.2.2.2.1, hmem.2.2.2.2.2.1,
      hmem.2.2.2.2.2.2.1, hmem.2.2.2.2.2.2.2.1, hmem.2.2.2.2.2.2.2.2.1,
      hmem.2.2.2.2.2.2.2.2.2.1⟩,
    fun vs idx e r' hr => renderWith_returned_state vs idx e r r' hr, ?_, ?_, ?_, ?_⟩
  · rw [destruct_eq, ← hmem.2.2.1]
  · rw [hrel, hacq]
    rfl
  · rw [hrel]
    decide
  · rw [hrel]
    decide

/-- C3 on the sample renderer, whose construction succeeds and leaves allocator 7: after a
`render()` the destructor deletes mesh 100 first and destroys allocator 7 before the
device and the context are released. -/
theorem destruct_releases_in_reverse_of_construct_witness :
    (construct sampleConstructEnv 1).result = .returned sampleRenderer ∧
    destruct { sampleRenderer with mesh := some 100 } =
      ⟨[.deleteMesh (some 100), .reset .commandBuffer, .reset .commandPool,
        .reset .graphicPipeline, .reset .framebuffers, .reset .renderPass, .reset .swapchain,
        .reset .semaphores, .vmaDestroyAllocator 7, .reset .device, .reset .context],
        .returned ()⟩ :=
  ⟨by decide,
   (destruct_releases_in_reverse_of_construct sampleConstructEnv 1 sampleRenderer (some 100)
      (by decide)).2.2.2.2.1⟩

/-- C4: for every mesh and every framebuffer count, what one iteration of the loop of
`render()` records into its command buffer contains exactly one beginRenderPass and
exactly one endRenderPass, the begin before the end, both between the beginRecording and
the endRecording of that buffer, and every bind and draw between the begin and the end of
the render pass.  When the upload of the mesh is accepted and the loop stays within
defined behaviour (`n` at most `INT_MAX`, a command buffer for each framebuffer), the
trace of `render()` is the creation and the load of the mesh followed by one such
iteration per framebuffer, and with pairwise distinct command buffers what is recorded
into each command buffer `i < n` has the same property.  When the allocator rejects the
upload, `render()` throws before anything is recorded. -/
theorem renderWith_render_pass_bracketed (vs : List Vertex) (idx : List Nat) (env : RenderEnv)
    (r : VulkanRenderer) :
    (∀ cb fb : Handle, RenderPassBracketed
      (recordedInto (recordCommands r (meshOf vs idx env r) cb fb).trace cb)) ∧
    (env.meshLoad = .ok () → r.framebuffers.framebuffers.length ≤ INT_MAX →
      r.framebuffers.framebuffers.length ≤ r.commandBuffer.commandBuffers.length →
      renderWith vs idx env r =
        ⟨.newMesh env.meshAddr r.vkallocator vs idx :: .meshLoad env.meshAddr ::
          (r.commandBuffer.commandBuffers.zip r.framebuffers.framebuffers).flatMap
            (fun p => (recordCommands r (meshOf vs idx env r) p.1 p.2).trace),
          .returned { r with mesh := some env.meshAddr }⟩ ∧
      (r.commandBuffer.commandBuffers.Nodup →
        ∀ (i : Nat) (cb : Handle), i < r.framebuffers.framebuffers.length →
          r.commandBuffer.commandBuffers[i]? = some cb →
          RenderPassBracketed (recordedInto (renderWith vs idx env r).trace cb))) ∧
    (∀ what : String, env.meshLoad = .error what →
      renderWith vs idx env r =
        ⟨[.newMesh env.meshAddr r.vkallocator vs idx, .meshLoad env.meshAddr],
          .threw (.allocation_error what)⟩) := by
  refine ⟨fun cb fb => ?_, fun hload hn hcb => ⟨renderWith_eq vs idx env r hload hn hcb, ?_⟩,
    fun what hload => renderWith_load_failure vs idx env r what hload⟩
  · rw [recordedInto_recordCommands_self]
    exact renderPassBracketed_specRecording r _ cb fb
  · intro hnd i cb hlt hc
    rw [recordedInto_renderWith vs idx env r hload hn hcb hnd i cb _ hc
      (List.getElem?_eq_getElem hlt)]
    exact renderPassBracketed_specRecording r _ cb _

/-- C4 on `render()` itself with the sample renderer: the three command buffers each hold
a well-bracketed render pass. -/
theorem renderWith_render_pass_bracketed_witness :
    sampleRenderer.framebuffers.framebuffers.length = 3 ∧
    RenderPassBracketed (recordedInto (render sampleRenderEnv sampleRenderer).trace 41) ∧
    RenderPassBracketed (recordedInto (render sampleRenderEnv sampleRenderer).trace 42) ∧
    RenderPassBracketed (recordedInto (render sampleRenderEnv sampleRenderer).trace 43) :=
  ⟨by decide,
   ((renderWith_render_pass_bracketed vertices indices sampleRenderEnv sampleRenderer).2.1
      rfl (by decide) (by decide)).2 (by decide) 0 41 (by decide) (by decide),
   ((renderWith_render_pass_bracketed vertices indices sampleRenderEnv sampleRenderer).2.1
      rfl (by decide) (by decide)).2 (by decide) 1 42 (by decide) (by decide),
   ((renderWith_render_pass_bracketed vertices indices sampleRenderEnv sampleRenderer).2.1
      rfl (by decide) (by decide)).2 (by decide) 2 43 (by decide) (by decide)⟩

/-- C5: `createAllocator` throws the initialisation exception, without calling
`vmaCreateAllocator`, whenever the context is absent or the device is absent; and for
every present context and device it makes one creation call and returns the handle that
call left, without throwing, whatever the call answered. -/
theorem createAllocator_contract (env : AllocatorEnv) :
    (∀ device : Option VulkanDevice, createAllocator env none device =
      ⟨[], .threw (.VulkanInitialisationException "Impossible to create the allocator")⟩) ∧
    (∀ context : Option VulkanContext, createAllocator env context none =
      ⟨[], .threw (.VulkanInitialisationException "Impossible to create the allocator")⟩) ∧
    (∀ (context : VulkanContext) (device : VulkanDevice),
      createAllocator env (some context) (some device) =
        ⟨[.vmaCreateAllocator
            { physicalDevice := context.physicalDevice
              device := device.device
              inst := context.inst
              vulkanApiVersion := VK_API_VERSION_1_1 }], .returned env.allocatorOut⟩) := by
  refine ⟨?_, ?_, ?_⟩
  · intro device
    simp [createAllocator, throwExn]
  · intro context
    cases context <;> simp [createAllocator, throwExn]
  · intro context device
    simp [createAllocator, run_bind_eq, run_pure_eq, Run.bind, Run.pure, callResult]

/-- C6, the code at the failing input: with context and device present and
`vmaCreateAllocator` answering `VK_ERROR_INITIALIZATION_FAILED`, `createAllocator`
returns the (null) handle instead of throwing. -/
theorem createAllocator_ignores_creation_failure :
    failedAllocatorEnv.vmaCreateAllocator ≠ VK_SUCCESS ∧
    createAllocator failedAllocatorEnv (some sampleRenderer.context)
        (some sampleRenderer.device) =
      ⟨[.vmaCreateAllocator ⟨3, 4, 2, VK_API_VERSION_1_1⟩], .returned VK_NULL_HANDLE⟩ := by
  decide

/-- C7: `present()` throws if and only if the queue submission answers something other
than `VK_SUCCESS`.  Whenever it throws, it throws the runtime error, the submission has
answered a failure, and the trace ends at the submit: no present call and no queue-idle
wait follow.  Whenever a submission is made and answers a failure, it throws the runtime
error.  With an acquired image index that denotes a command buffer this is the plain
equivalence. -/
theorem present_throws_iff_submit_fails (env : PresentEnv) (r : VulkanRenderer) :
    (∀ e, (present env r).result = .threw e →
      e = .runtime_error "Impossible to submit draw command buffer" ∧
      env.vkQueueSubmit ≠ VK_SUCCESS ∧
      ∃ cb, r.commandBuffer.commandBuffers[env.imageIndex]? = some cb ∧
        (present env r).trace =
          [.vkAcquireNextImageKHR r.device.device r.swapchain.swapchain UINT64_MAX
              r.semaphores.availableSemaphore VK_NULL_HANDLE,
            .vkQueueSubmit r.device.graphicQueue 1
              ⟨VK_STRUCTURE_TYPE_SUBMIT_INFO, 1, [r.semaphores.availableSemaphore],
                [VK_PIPELINE_STAGE_COLOR_ATTACHMENT_OUTPUT_BIT], 1, [cb], 1,
                [r.semaphores.finishedSemaphore]⟩ VK_NULL_HANDLE]) ∧
    (∀ (queue : Handle) (n : Nat) (info : VkSubmitInfo) (fence : Handle),
      Call.vkQueueSubmit queue n info fence ∈ (present env r).trace →
      env.vkQueueSubmit ≠ VK_SUCCESS →
      (present env r).result =
        .threw (.runtime_error "Impossible to submit draw command buffer")) ∧
    (∀ cb : Handle, r.commandBuffer.commandBuffers[env.imageIndex]? = some cb →
      ((∃ e, (present env r).result = .threw e) ↔ env.vkQueueSubmit ≠ VK_SUCCESS) ∧
      (env.vkQueueSubmit = VK_SUCCESS → (present env r).result = .returned ())) := by
  cases hcb : r.commandBuffer.commandBuffers[env.imageIndex]? with
  | none =>
      rw [present_eq_of_no_index env r hcb]
      simp
  | some cb =>
      rw [present_eq_of_index env r cb hcb]
      by_cases hs : env.vkQueueSubmit = VK_SUCCESS
      · simp [hs]
      · simp [hs]

/-- C7 on the sample renderer with a submission that reports `VK_ERROR_DEVICE_LOST`. -/
theorem present_throws_iff_submit_fails_witness :
    failedSubmitEnv.vkQueueSubmit ≠ VK_SUCCESS ∧
    (present failedSubmitEnv sampleRenderer).result =
      .threw (.runtime_error "Impossible to submit draw command buffer") ∧
    (present failedSubmitEnv sampleRenderer).trace =
      [.vkAcquireNextImageKHR 4 10 UINT64_MAX 8 VK_NULL_HANDLE,
        .vkQueueSubmit 5 1
          ⟨VK_STRUCTURE_TYPE_SUBMIT_INFO, 1, [8],
            [VK_PIPELINE_STAGE_COLOR_ATTACHMENT_OUTPUT_BIT], 1, [42], 1, [9]⟩ VK_NULL_HANDLE] :=
  ⟨by decide,
   (present_throws_iff_submit_fails failedSubmitEnv sampleRenderer).2.1 5 1
     ⟨VK_STRUCTURE_TYPE_SUBMIT_INFO, 1, [8],
       [VK_PIPELINE_STAGE_COLOR_ATTACHMENT_OUTPUT_BIT], 1, [42], 1, [9]⟩ VK_NULL_HANDLE
     (by decide) (by decide),
   by decide⟩

/-- C8, the code at the failing inputs: when the acquire call, or the present call,
answers `VK_ERROR_OUT_OF_DATE_KHR`, `present()` makes the same four calls as in a run
without error and returns normally. -/
theorem present_ignores_acquire_and_present_errors :
    failedAcquireEnv.vkAcquireNextImageKHR ≠ VK_SUCCESS ∧
    failedPresentEnv.vkQueuePresentKHR ≠ VK_SUCCESS ∧
    (present failedAcquireEnv sampleRenderer).result = .returned () ∧
    (present failedPresentEnv sampleRenderer).result = .returned () ∧
    present failedAcquireEnv sampleRenderer = present samplePresentEnv sampleRenderer ∧
    present failedPresentEnv sampleRenderer = present samplePresentEnv sampleRenderer := by
  decide

/-- C9: for every framebuffer list of length `n`, when the upload of the mesh is accepted
and the loop stays within defined behaviour (`n` at most `INT_MAX`, at least `n` command
buffers), `render()` returns, having created and loaded the mesh once and then recorded
exactly `n` command buffers, buffer `i` against framebuffer `i` in increasing order of
`i`, each recording being exactly: begin recording, begin render pass on framebuffer `i`,
bind pipeline, bind vertex buffer at offset 0, bind index buffer only when the index list
is non-empty, one draw, end render pass, end recording; every command recorded goes into
one of the first `n` command buffers, and with pairwise distinct command buffers nothing
is recorded into a buffer at position `n` or beyond.  When the allocator rejects the
upload, `render()` throws the allocation error after the load call and records
nothing. -/
theorem renderWith_records_every_framebuffer (vs : List Vertex) (idx : List Nat)
    (env : RenderEnv) (r : VulkanRenderer) :
    (env.meshLoad = .ok () → r.framebuffers.framebuffers.length ≤ INT_MAX →
      r.framebuffers.framebuffers.length ≤ r.commandBuffer.commandBuffers.length →
      (renderWith vs idx env r).result = .returned { r with mesh := some env.meshAddr } ∧
      (renderWith vs idx env r).trace.filter (fun c => !c.isLogger) =
        .newMesh env.meshAddr r.vkallocator vs idx :: .meshLoad env.meshAddr ::
          (r.commandBuffer.commandBuffers.zip r.framebuffers.framebuffers).flatMap
            (fun p => specRecording r (meshOf vs idx env r) p.1 p.2
              (drawOf (meshOf vs idx env r) p.1)) ∧
      (∀ cb, (drawOf (meshOf vs idx env r) cb).isDraw = true) ∧
      (r.commandBuffer.commandBuffers.zip r.framebuffers.framebuffers).length =
        r.framebuffers.framebuffers.length ∧
      (∀ (i : Nat) (cb fb : Handle), r.commandBuffer.commandBuffers[i]? = some cb →
        r.framebuffers.framebuffers[i]? = some fb →
        (r.commandBuffer.commandBuffers.zip r.framebuffers.framebuffers)[i]? = some (cb, fb)) ∧
      (∀ (c : Call) (cb : Handle), c ∈ (renderWith vs idx env r).trace →
        c.commandBuffer = some cb →
        cb ∈ r.commandBuffer.commandBuffers.take r.framebuffers.framebuffers.length) ∧
      (r.commandBuffer.commandBuffers.Nodup →
        ∀ (j : Nat) (cb : Handle), r.framebuffers.framebuffers.length ≤ j →
          r.commandBuffer.commandBuffers[j]? = some cb →
          recordedInto (renderWith vs idx env r).trace cb = [])) ∧
    (∀ what : String, env.meshLoad = .error what →
      renderWith vs idx env r =
        ⟨[.newMesh env.meshAddr r.vkallocator vs idx, .meshLoad env.meshAddr],
          .threw (.allocation_error what)⟩) := by
  refine ⟨fun hload hn hcb => ?_,
    fun what hload => renderWith_load_failure vs idx env r what hload⟩
  refine ⟨by rw [renderWith_eq vs idx env r hload hn hcb], ?_, fun cb => drawOf_isDraw _ cb, ?_,
    fun i cb fb h₁ h₂ => getElem?_zip_of_getElem? _ _ i cb fb h₁ h₂, ?_,
    fun hnd j cb hj hc =>
      recordedInto_renderWith_beyond vs idx env r hload hn hcb hnd j cb hj hc⟩
  · rw [renderWith_eq vs idx env r hload hn hcb]
    simp only [List.filter_cons, List.filter_flatMap, recordCommands_without_logger]
    rfl
  · simp only [List.length_zip]
    omega
  · intro c cb hc ht
    rw [renderWith_eq vs idx env r hload hn hcb] at hc
    simp only [List.mem_cons, List.mem_flatMap] at hc
    rcases hc with rfl | rfl | ⟨p, hp, hc⟩
    · simp [Call.commandBuffer] at ht
    · simp [Call.commandBuffer] at ht
    · rw [commandBuffer_of_mem_recordCommands r _ p.1 p.2 cb c hc ht,
        ← map_fst_zip_eq_take]
      exact List.mem_map_of_mem Prod.fst hp

/-- C9 on `render()` itself with the sample renderer: three recordings, with the indexed
draw of the quad, and nothing else. -/
theorem renderWith_records_every_framebuffer_witness :
    sampleRenderer.framebuffers.framebuffers.length = 3 ∧
    (render sampleRenderEnv sampleRenderer).result =
      .returned { sampleRenderer with mesh := some 100 } ∧
    (render sampleRenderEnv sampleRenderer).trace.filter (fun c => !c.isLogger) =
      .newMesh 100 7 vertices indices :: .meshLoad 100 ::
        ([(41, 31), (42, 32), (43, 33)] : List (Handle × Handle)).flatMap
          (fun p =>
            [.beginRecording p.1, .beginRenderPass 11 p.1 p.2,
             .vkCmdBindPipeline p.1 VK_PIPELINE_BIND_POINT_GRAPHICS 12,
             .vkCmdBindVertexBuffers p.1 0 1 101 0,
             .vkCmdBindIndexBuffer p.1 102 0 VK_INDEX_TYPE_UINT32,
             .vkCmdDrawIndexed p.1 6 1 0 0 0,
             .endRenderPass 11 p.1, .endRecording p.1]) ∧
    render failedLoadEnv sampleRenderer =
      ⟨[.newMesh 100 7 vertices indices, .meshLoad 100],
        .threw (.allocation_error "out of memory")⟩ :=
  ⟨by decide,
   ((renderWith_records_every_framebuffer vertices indices sampleRenderEnv sampleRenderer).1
      rfl (by decide) (by decide)).1,
   ((renderWith_records_every_framebuffer vertices indices sampleRenderEnv sampleRenderer).1
      rfl (by decide) (by decide)).2.1,
   (renderWith_records_every_framebuffer vertices indices failedLoadEnv sampleRenderer).2
      "out of memory" rfl⟩

/-- C10, the code at the failing input: two calls of `render()` followed by the
destruction of the renderer.  After the first call one mesh is live; after the second
call two are; when the allocator is destroyed, and at the end, the mesh of the first call
is still live: the destructor deletes only the mesh of the last call. -/
theorem second_render_leaks_first_mesh :
    (rendersThenDestruct [sampleRenderEnv, secondRenderEnv] sampleRenderer).result =
      .returned () ∧
    liveMeshes (renders [sampleRenderEnv] sampleRenderer).trace = [100] ∧
    liveMeshes (renders [sampleRenderEnv, secondRenderEnv] sampleRenderer).trace = [100, 200] ∧
    liveMeshes (beforeAllocatorDestroyed
      (rendersThenDestruct [sampleRenderEnv, secondRenderEnv] sampleRenderer).trace) = [100] ∧
    liveMeshes (rendersThenDestruct [sampleRenderEnv, secondRenderEnv] sampleRenderer).trace =
      [100] := by
  decide

end Rendan
